import Mathlib

/-!
Verification of the Jina scraper strategy
(`gpt_researcher/scraper/jina/jina.py`).

The Python module is shallowly embedded below.  Pure pieces of the code
become Lean functions; exceptions become `Except PyError`; the network and
the external collaborators (`readabilipy`, `markdownify`,
`get_relevant_images` from `scraper/utils.py`) are passed in explicitly, so
that theorems quantify over every possible behaviour of those black boxes.
The `tenacity` retry decorator applied to `scrape` is modelled as an
explicit fuelled loop that also reports the number of attempts made and the
waits slept between attempts.
-/

namespace Jina

/-- An HTTP response as the `requests` library presents it to the scraper:
a numeric status code and a body text. -/
structure HttpResponse where
  status : Nat
  body : String
deriving DecidableEq

/-- The Python exceptions that can cross the boundaries the claims talk
about.  `httpError s` is a `requests.exceptions.HTTPError` whose attached
response has status `s`; `httpErrorNoResponse` is an `HTTPError` whose
`response` attribute is `None`; `unboundLocalError` models reading a local
variable that was never assigned; `parseFailed` stands for any exception
raised by the parse/transformation collaborators. -/
inductive PyError where
  | httpError (status : Nat)
  | httpErrorNoResponse
  | unboundLocalError
  | parseFailed
deriving DecidableEq

/-- Embeds `is_429_error`: true exactly when the exception is an
`HTTPError`, its response is not `None`, and the status code is 429. -/
def is_429_error : PyError → Bool
  | PyError.httpError s => s == 429
  | _ => false

/-- Embeds `requests.Response.raise_for_status`: raises `HTTPError`
exactly when the status code is in `[400, 600)`; any other status
(including 1xx and 3xx) passes through silently. -/
def raise_for_status (r : HttpResponse) : Except PyError Unit :=
  if 400 ≤ r.status ∧ r.status < 600 then
    Except.error (PyError.httpError r.status)
  else
    Except.ok ()

/-- Embeds `JinaScraper.get_api_key`.  The environment variable
`JINA_API_KEY` is the `Option String` argument.  When it is absent the
Python code logs a warning and then executes `return api_key` with the
local variable `api_key` never assigned, which raises
`UnboundLocalError`. -/
def get_api_key (env_jina_api_key : Option String) : Except PyError String :=
  match env_jina_api_key with
  | some k => Except.ok k
  | none => Except.error PyError.unboundLocalError

/-- Embeds `JinaScraper.get_server_url`: the `JINA_SERVER_URL` environment
variable when set, else the official endpoint. -/
def get_server_url (env_jina_server_url : Option String) : String :=
  match env_jina_server_url with
  | some u => u
  | none => "https://r.jina.ai/"

/-- An opaque network session / connection pool (`requests.Session`).  The
scraper stores one but never uses it, so a bare identifier suffices. -/
structure Session where
  id : Nat
deriving DecidableEq

/-- A fresh `requests.Session()` made when the caller passes none. -/
def requests_Session : Session := Session.mk 0

/-- The state of a constructed `JinaScraper` object. -/
structure JinaScraper where
  link : String
  session : Session
  api_key : String
  api_url : String
deriving DecidableEq

/-- Embeds `JinaScraper.__init__`: stores the link, the session (or a fresh
one), and reads the two environment settings.  Construction fails when
`get_api_key` raises. -/
def JinaScraper.init (link : String) (session : Option Session)
    (env_jina_api_key env_jina_server_url : Option String) :
    Except PyError JinaScraper :=
  match get_api_key env_jina_api_key with
  | Except.error e => Except.error e
  | Except.ok key =>
      Except.ok (JinaScraper.mk link (session.getD requests_Session) key
        (get_server_url env_jina_server_url))

/-- An outbound HTTP request as the scraper builds it for
`requests.post(self.api_url, headers=headers_json, json=data)`. -/
structure HttpRequest where
  method : String
  url : String
  headers : List (String × String)
  jsonBody : List (String × String)
deriving DecidableEq

/-- Embeds the header construction in `scrape`: the Authorization header is
included exactly when `self.api_key` is truthy, i.e. a non-empty string. -/
def build_headers (api_key : String) : List (String × String) :=
  if api_key ≠ "" then
    [("Authorization", "Bearer " ++ api_key),
     ("Content-Type", "application/json"),
     ("X-Return-Format", "html")]
  else
    [("Content-Type", "application/json"),
     ("X-Return-Format", "html")]

/-- The full request `scrape` sends: a POST to the configured endpoint with
the headers above and the JSON body `{"url": self.link}`. -/
def build_request (s : JinaScraper) : HttpRequest :=
  HttpRequest.mk "POST" s.api_url (build_headers s.api_key)
    [("url", s.link)]

/-- The dictionary `readabilipy.simple_json_from_html_string` returns, as
far as the scraper reads it: a `title` and a `content` HTML fragment. -/
structure Article where
  title : String
  content : String
deriving DecidableEq

/-- A parsed `BeautifulSoup` document; `html.parser` accepts any input, so
parsing is a total function of the HTML text. -/
structure Soup where
  html : String
deriving DecidableEq

/-- Embeds `BeautifulSoup(html, "html.parser")`. -/
def BeautifulSoup (html : String) : Soup := Soup.mk html

/-- The external collaborators `scrape` calls, treated as black boxes:
`readabilipy.simple_json_from_html_string` (which may raise a parse
failure), `markdownify.markdownify`, and `get_relevant_images` from
`gpt_researcher/scraper/utils.py`. -/
structure Collaborators where
  simple_json_from_html_string : String → Except PyError Article
  markdownify : String → String
  get_relevant_images : Soup → String → List String

/-- The tuple `scrape` returns: (markdown, image urls, title). -/
abbrev ScrapeOutcome := String × List String × String

/-- The body of the `try` block of `scrape`, for one attempt: build and
send the request, raise for a 4xx/5xx status, run readability extraction,
parse the cleaned HTML, convert to markdown and collect relevant images. -/
def attempt_body (s : JinaScraper) (C : Collaborators)
    (net : HttpRequest → HttpResponse) : Except PyError ScrapeOutcome :=
  let response := net (build_request s)
  match raise_for_status response with
  | Except.error e => Except.error e
  | Except.ok _ =>
      let raw_html := response.body
      match C.simple_json_from_html_string raw_html with
      | Except.error e => Except.error e
      | Except.ok article =>
          let title := article.title
          let soup := BeautifulSoup article.content
          let markdown := C.markdownify article.content
          let image_urls := C.get_relevant_images soup s.link
          Except.ok (markdown, image_urls, title)

/-- One call of the undecorated `scrape`: the `try` block together with the
`except Exception` handler, which re-raises exactly the 429 errors and
converts every other exception into the empty outcome `("", [], "")`. -/
def scrape_once (s : JinaScraper) (C : Collaborators)
    (net : HttpRequest → HttpResponse) : Except PyError ScrapeOutcome :=
  match attempt_body s C net with
  | Except.ok r => Except.ok r
  | Except.error e =>
      if is_429_error e then Except.error e else Except.ok ("", [], "")

/-- Modelled from the spec: `tenacity.wait_exponential(multiplier, max,
exp_base := 2, min)` — the library code is not under `src/`.  The wait
after completed attempt `n` is `multiplier * 2 ^ (n - 1)` clamped into
`[min, max]`; the spec states the same schedule as
`min(ceiling, max(floor, base * 2^(attempt-1)))`. -/
def wait_exponential (multiplier lo hi : Nat) (attempt_number : Nat) : Nat :=
  max (max 0 lo) (min (multiplier * 2 ^ (attempt_number - 1)) hi)

/-- The wait schedule `scrape` is decorated with:
`wait_exponential(multiplier=1, min=10, max=600)`. -/
def jina_wait (attempt_number : Nat) : Nat :=
  wait_exponential 1 10 600 attempt_number

/-- Modelled from the spec: the `tenacity.retry` decorator — the library
code is not under `src/`.  `f n` runs attempt number `n` (1-based).  After
a failed attempt whose exception satisfies `retryP`, the loop stops and
re-raises (`reraise=True`) once `stopAfter` attempts have run, and
otherwise sleeps `wait n` and retries; a success or a non-retryable
exception ends the loop at once.  The result is paired with the number of
attempts made and the list of waits slept. -/
def tenacity_retry (f : Nat → Except PyError α) (retryP : PyError → Bool)
    (wait : Nat → Nat) (stopAfter : Nat) (fuel : Nat) (n : Nat) :
    Except PyError α × Nat × List Nat :=
  match f n with
  | Except.ok r => (Except.ok r, 1, [])
  | Except.error e =>
      if retryP e then
        if stopAfter ≤ n then (Except.error e, 1, [])
        else
          match fuel with
          | 0 => (Except.error e, 1, [])
          | fuel' + 1 =>
              let rest := tenacity_retry f retryP wait stopAfter fuel' (n + 1)
              (rest.1, rest.2.1 + 1, wait n :: rest.2.2)
      else (Except.error e, 1, [])

/-- The decorated `JinaScraper.scrape`:
`@retry(retry=retry_if_exception(is_429_error),
wait=wait_exponential(multiplier=1, min=10, max=600),
stop=stop_after_attempt(5), reraise=True)` around `scrape_once`.
`net n` is the network behaviour seen by attempt `n` (a mocked response
sequence).  Returns the outcome together with the number of attempts made
and the waits slept. -/
def JinaScraper.scrape (s : JinaScraper) (C : Collaborators)
    (net : Nat → HttpRequest → HttpResponse) :
    Except PyError ScrapeOutcome × Nat × List Nat :=
  tenacity_retry (fun n => scrape_once s C (net n)) is_429_error jina_wait 5 5 1

end Jina

namespace Jina

/-- A concrete collaborator used by witnesses and counterexamples:
readability succeeds with title `"T"` and the raw body as content,
markdownify is the identity, and no relevant images are found. -/
def test_collab : Collaborators :=
  Collaborators.mk (fun h => Except.ok (Article.mk ("T") h)) (fun c => c)
    (fun _ _ => [])

/-- A concrete scraper state used by witnesses and counterexamples. -/
def test_scraper : JinaScraper :=
  { link := "http://example.com", session := requests_Session,
    api_key := "k", api_url := "https://r.jina.ai/" }

/-- The same scraper state as `test_scraper` but holding a different
session object. -/
def test_scraper_other_session : JinaScraper :=
  { link := "http://example.com", session := Session.mk 1,
    api_key := "k", api_url := "https://r.jina.ai/" }

/-- A response whose status is 429 makes one call of the wrapped `scrape`
re-raise the `HTTPError`. -/
lemma scrape_once_429 (s : JinaScraper) (C : Collaborators)
    (net : HttpRequest → HttpResponse)
    (h : (net (build_request s)).status = 429) :
    scrape_once s C net = Except.error (PyError.httpError 429) := by
  unfold scrape_once attempt_body raise_for_status
  simp [h, is_429_error]

/-- A response that passes `raise_for_status` and parses successfully makes
one call of the wrapped `scrape` return the transformed content. -/
lemma scrape_once_success (s : JinaScraper) (C : Collaborators)
    (net : HttpRequest → HttpResponse) (article : Article)
    (hst : ¬ (400 ≤ (net (build_request s)).status ∧
              (net (build_request s)).status < 600))
    (hp : C.simple_json_from_html_string (net (build_request s)).body =
          Except.ok article) :
    scrape_once s C net =
      Except.ok (C.markdownify article.content,
        C.get_relevant_images (BeautifulSoup article.content) s.link,
        article.title) := by
  unfold scrape_once attempt_body raise_for_status
  simp [hst, hp]

/-- The retry loop stops at once on a successful attempt. -/
lemma tenacity_ok (f : Nat → Except PyError α) (retryP : PyError → Bool)
    (wait : Nat → Nat) (stopAfter fuel n : Nat) (r : α)
    (hf : f n = Except.ok r) :
    tenacity_retry f retryP wait stopAfter fuel n = (Except.ok r, 1, []) := by
  unfold tenacity_retry
  rw [hf]

/-- The retry loop re-raises a retryable error once the attempt cap is
reached. -/
lemma tenacity_stop (f : Nat → Except PyError α) (retryP : PyError → Bool)
    (wait : Nat → Nat) (stopAfter fuel n : Nat) (e : PyError)
    (hf : f n = Except.error e) (hp : retryP e = true)
    (hst : stopAfter ≤ n) :
    tenacity_retry f retryP wait stopAfter fuel n =
      (Except.error e, 1, []) := by
  unfold tenacity_retry
  rw [hf]
  simp [hp, hst]

/-- Below the attempt cap, a retryable error makes the retry loop wait and
run the next attempt. -/
lemma tenacity_step (f : Nat → Except PyError α) (retryP : PyError → Bool)
    (wait : Nat → Nat) (stopAfter fuel n : Nat) (e : PyError)
    (hf : f n = Except.error e) (hp : retryP e = true)
    (hst : ¬ stopAfter ≤ n) :
    tenacity_retry f retryP wait stopAfter (fuel + 1) n =
      ((tenacity_retry f retryP wait stopAfter fuel (n + 1)).1,
       (tenacity_retry f retryP wait stopAfter fuel (n + 1)).2.1 + 1,
       wait n :: (tenacity_retry f retryP wait stopAfter fuel (n + 1)).2.2) := by
  conv_lhs => rw [tenacity_retry]
  rw [hf]
  simp [hp, hst]

end Jina

namespace Jina

/-- C2: the claim says construction and scraping work without a configured
API key; in the code, an absent `JINA_API_KEY` makes `get_api_key` log a
warning and then execute `return api_key` with the variable unbound, so
`UnboundLocalError` is raised and `JinaScraper.__init__` fails. -/
theorem C2_absent_api_key_raises :
    get_api_key none = Except.error PyError.unboundLocalError ∧
    JinaScraper.init ("http://example.com") none none none =
      Except.error PyError.unboundLocalError :=
  ⟨rfl, rfl⟩

/-- C4: for every attempt index `n ≥ 1`, the wait computed before the next
retry equals `min(600, max(10, 1 * 2^(n-1)))`, a pure function of the
attempt index. -/
theorem C4_wait_schedule (n : Nat) (h : 1 ≤ n) :
    jina_wait n = min 600 (max 10 (1 * 2 ^ (n - 1))) := by
  unfold jina_wait wait_exponential
  omega

/-- Witness for C4 at the concrete attempt index 3. -/
theorem C4_wait_schedule_witness :
    1 ≤ 3 ∧ jina_wait 3 = min 600 (max 10 (1 * 2 ^ (3 - 1))) :=
  ⟨by decide, C4_wait_schedule 3 (by decide)⟩

/-- C7: every outbound request is a POST to the configured endpoint, its
headers always include `Content-Type: application/json` and
`X-Return-Format: html`, include `Authorization: Bearer <API_KEY>` exactly
when an API key is present (non-empty), and its JSON body is
`{"url": <target>}`. -/
theorem C7_request_shape (s : JinaScraper) :
    (build_request s).method = "POST" ∧
    (build_request s).url = s.api_url ∧
    ("Content-Type", "application/json") ∈ (build_request s).headers ∧
    ("X-Return-Format", "html") ∈ (build_request s).headers ∧
    (∀ v, ("Authorization", v) ∈ (build_request s).headers ↔
      (s.api_key ≠ "" ∧ v = "Bearer " ++ s.api_key)) ∧
    (build_request s).jsonBody = [("url", s.link)] := by
  unfold build_request build_headers
  by_cases hk : s.api_key = ""
  · simp [hk, Prod.ext_iff]
  · simp [hk, Prod.ext_iff]

/-- Witness for C7 at a concrete scraper state. -/
theorem C7_request_shape_witness :
    (build_request test_scraper).method = "POST" ∧
    (("Authorization", "Bearer k") ∈ (build_request test_scraper).headers ↔
      (test_scraper.api_key ≠ "" ∧
       "Bearer k" = "Bearer " ++ test_scraper.api_key)) :=
  ⟨(C7_request_shape test_scraper).1,
   (C7_request_shape test_scraper).2.2.2.2.1 ("Bearer k")⟩

end Jina

namespace Jina

/-- C1: for every error response whose status is not 429 (the first
disjunct) and for every parse/transformation failure raised inside the
`try` block and not classified as a 429 (the second disjunct), `scrape()`
returns the empty outcome `("", [], "")` after exactly one attempt, with no
retry and no wait. -/
theorem C1_non429_failure_empty_no_retry (s : JinaScraper) (C : Collaborators)
    (net : Nat → HttpRequest → HttpResponse)
    (h : (400 ≤ (net 1 (build_request s)).status ∧
          (net 1 (build_request s)).status < 600 ∧
          (net 1 (build_request s)).status ≠ 429) ∨
         (∃ e, attempt_body s C (net 1) = Except.error e ∧
               is_429_error e = false)) :
    JinaScraper.scrape s C net = (Except.ok ("", [], ""), 1, []) := by
  have honce : scrape_once s C (net 1) = Except.ok ("", [], "") := by
    rcases h with ⟨h4, h6, hne⟩ | ⟨e, he, h429⟩
    · have hb : attempt_body s C (net 1) =
          Except.error (PyError.httpError (net 1 (build_request s)).status) := by
        unfold attempt_body raise_for_status
        simp [h4, h6]
      unfold scrape_once
      rw [hb]
      simp [is_429_error, hne]
    · unfold scrape_once
      rw [he]
      simp [h429]
  unfold JinaScraper.scrape
  exact tenacity_ok _ _ _ _ _ _ _ honce

/-- Witness for C1: a 500 response yields the empty outcome in one
attempt. -/
theorem C1_non429_failure_empty_no_retry_witness :
    JinaScraper.scrape test_scraper test_collab
        (fun _ _ => HttpResponse.mk 500 ("x")) =
      (Except.ok ("", [], ""), 1, []) :=
  C1_non429_failure_empty_no_retry test_scraper test_collab
    (fun _ _ => HttpResponse.mk 500 ("x"))
    (Or.inl ⟨by decide, by decide, by decide⟩)

/-- C3: for five consecutive 429 responses, `scrape()` makes exactly 5
attempts, the four inter-attempt waits follow the configured schedule, are
non-decreasing and lie in `[10, 600]`, and the rate-limit `HTTPError` is
re-raised to the caller instead of being converted to the empty outcome. -/
theorem C3_five_429s_exhaust_and_reraise (s : JinaScraper)
    (C : Collaborators) (net : Nat → HttpRequest → HttpResponse)
    (h : ∀ n, 1 ≤ n → n ≤ 5 → (net n (build_request s)).status = 429) :
    JinaScraper.scrape s C net =
      (Except.error (PyError.httpError 429), 5,
        [jina_wait 1, jina_wait 2, jina_wait 3, jina_wait 4]) ∧
    List.Chain' (· ≤ ·) [jina_wait 1, jina_wait 2, jina_wait 3, jina_wait 4] ∧
    ∀ w ∈ [jina_wait 1, jina_wait 2, jina_wait 3, jina_wait 4],
      10 ≤ w ∧ w ≤ 600 := by
  have hf : ∀ n, 1 ≤ n → n ≤ 5 →
      scrape_once s C (net n) = Except.error (PyError.httpError 429) :=
    fun n h1 h5 => scrape_once_429 s C (net n) (h n h1 h5)
  have hp : is_429_error (PyError.httpError 429) = true := rfl
  have t5 : tenacity_retry (fun n => scrape_once s C (net n)) is_429_error
      jina_wait 5 1 5 = (Except.error (PyError.httpError 429), 1, []) :=
    tenacity_stop _ _ _ _ _ _ _ (hf 5 (by decide) (by decide)) hp (by decide)
  have t4 : tenacity_retry (fun n => scrape_once s C (net n)) is_429_error
      jina_wait 5 2 4 =
      (Except.error (PyError.httpError 429), 2, [jina_wait 4]) := by
    have hs := tenacity_step (fun n => scrape_once s C (net n)) is_429_error
      jina_wait 5 1 4 (PyError.httpError 429)
      (hf 4 (by decide) (by decide)) hp (by decide)
    rw [t5] at hs
    exact hs
  have t3 : tenacity_retry (fun n => scrape_once s C (net n)) is_429_error
      jina_wait 5 3 3 =
      (Except.error (PyError.httpError 429), 3, [jina_wait 3, jina_wait 4]) := by
    have hs := tenacity_step (fun n => scrape_once s C (net n)) is_429_error
      jina_wait 5 2 3 (PyError.httpError 429)
      (hf 3 (by decide) (by decide)) hp (by decide)
    rw [t4] at hs
    exact hs
  have t2 : tenacity_retry (fun n => scrape_once s C (net n)) is_429_error
      jina_wait 5 4 2 =
      (Except.error (PyError.httpError 429), 4,
        [jina_wait 2, jina_wait 3, jina_wait 4]) := by
    have hs := tenacity_step (fun n => scrape_once s C (net n)) is_429_error
      jina_wait 5 3 2 (PyError.httpError 429)
      (hf 2 (by decide) (by decide)) hp (by decide)
    rw [t3] at hs
    exact hs
  have t1 : tenacity_retry (fun n => scrape_once s C (net n)) is_429_error
      jina_wait 5 5 1 =
      (Except.error (PyError.httpError 429), 5,
        [jina_wait 1, jina_wait 2, jina_wait 3, jina_wait 4]) := by
    have hs := tenacity_step (fun n => scrape_once s C (net n)) is_429_error
      jina_wait 5 4 1 (PyError.httpError 429)
      (hf 1 (by decide) (by decide)) hp (by decide)
    rw [t2] at hs
    exact hs
  have hw : [jina_wait 1, jina_wait 2, jina_wait 3, jina_wait 4] =
      [10, 10, 10, 10] := rfl
  refine ⟨t1, ?_, ?_⟩ <;> rw [hw]
  · simp [List.chain'_cons]
  · intro w hw2
    simp only [List.mem_cons, List.not_mem_nil, or_false] at hw2
    omega

/-- Witness for C3: a mocked network that always answers 429. -/
theorem C3_five_429s_exhaust_and_reraise_witness :
    JinaScraper.scrape test_scraper test_collab
        (fun _ _ => HttpResponse.mk 429 ("x")) =
      (Except.error (PyError.httpError 429), 5,
        [jina_wait 1, jina_wait 2, jina_wait 3, jina_wait 4]) :=
  (C3_five_429s_exhaust_and_reraise test_scraper test_collab
    (fun _ _ => HttpResponse.mk 429 ("x")) (fun _ _ _ => rfl)).1

/-- C5: for one 429 response followed by a successful response, exactly one
retry occurs (two attempts, one wait) and `scrape()` returns the markdown,
images and title derived from the second response. -/
theorem C5_429_then_success (s : JinaScraper) (C : Collaborators)
    (net : Nat → HttpRequest → HttpResponse) (article : Article)
    (h1 : (net 1 (build_request s)).status = 429)
    (h2 : (net 2 (build_request s)).status = 200)
    (hp : C.simple_json_from_html_string (net 2 (build_request s)).body =
          Except.ok article) :
    JinaScraper.scrape s C net =
      (Except.ok (C.markdownify article.content,
         C.get_relevant_images (BeautifulSoup article.content) s.link,
         article.title), 2, [jina_wait 1]) := by
  have hs2 : scrape_once s C (net 2) =
      Except.ok (C.markdownify article.content,
        C.get_relevant_images (BeautifulSoup article.content) s.link,
        article.title) :=
    scrape_once_success s C (net 2) article (by omega) hp
  have t2 : tenacity_retry (fun n => scrape_once s C (net n)) is_429_error
      jina_wait 5 4 2 =
      (Except.ok (C.markdownify article.content,
        C.get_relevant_images (BeautifulSoup article.content) s.link,
        article.title), 1, []) :=
    tenacity_ok _ _ _ _ _ _ _ hs2
  have hs1 := tenacity_step (fun n => scrape_once s C (net n)) is_429_error
    jina_wait 5 4 1 (PyError.httpError 429)
    (scrape_once_429 s C (net 1) h1) rfl (by decide)
  rw [t2] at hs1
  exact hs1

/-- Witness for C5: a mocked network answering 429 then 200. -/
theorem C5_429_then_success_witness :
    JinaScraper.scrape test_scraper test_collab
        (fun n _ => if n = 1 then HttpResponse.mk 429 ("x")
                    else HttpResponse.mk 200 ("hello")) =
      (Except.ok ("hello", [], "T"), 2, [jina_wait 1]) :=
  C5_429_then_success test_scraper test_collab
    (fun n _ => if n = 1 then HttpResponse.mk 429 ("x")
                else HttpResponse.mk 200 ("hello"))
    (Article.mk ("T") ("hello")) rfl rfl rfl

end Jina

namespace Jina

/-- C6 counterexample: the status 304 is not 2xx, yet `raise_for_status`
does not treat it as an error, so `scrape()` returns a content-bearing
outcome for it — refuting "scrape() never returns a content-bearing outcome
for a non-2xx response". -/
theorem C6_counterexample_304 :
    ¬ (200 ≤ 304 ∧ 304 < 300) ∧
    (JinaScraper.scrape test_scraper test_collab
        (fun _ _ => HttpResponse.mk 304 ("hello"))).1 =
      Except.ok ("hello", [], "T") ∧
    (("hello", ([] : List String), "T") : ScrapeOutcome) ≠ ("", [], "") :=
  ⟨by omega, rfl, by decide⟩

/-- C6 (amended): every response with a 4xx or 5xx status is treated as an
error — the attempt raises an `HTTPError` carrying the status and yields no
content — and that error is classified as retryable exactly when the status
is 429; a non-429 such status makes the single attempt return the empty
outcome. -/
theorem C6_4xx5xx_error_classification (s : JinaScraper) (C : Collaborators)
    (net : HttpRequest → HttpResponse)
    (h4 : 400 ≤ (net (build_request s)).status)
    (h6 : (net (build_request s)).status < 600) :
    attempt_body s C net =
      Except.error (PyError.httpError (net (build_request s)).status) ∧
    (is_429_error (PyError.httpError (net (build_request s)).status) = true ↔
      (net (build_request s)).status = 429) ∧
    ((net (build_request s)).status ≠ 429 →
      scrape_once s C net = Except.ok ("", [], "")) := by
  have hb : attempt_body s C net =
      Except.error (PyError.httpError (net (build_request s)).status) := by
    unfold attempt_body raise_for_status
    simp [h4, h6]
  refine ⟨hb, by simp [is_429_error], ?_⟩
  intro hne
  unfold scrape_once
  rw [hb]
  simp [is_429_error, hne]

/-- Witness for the amended C6 at a concrete 503 response. -/
theorem C6_4xx5xx_error_classification_witness :
    attempt_body test_scraper test_collab
        (fun _ => HttpResponse.mk 503 ("x")) =
      Except.error (PyError.httpError 503) ∧
    scrape_once test_scraper test_collab (fun _ => HttpResponse.mk 503 ("x")) =
      Except.ok ("", [], "") := by
  have h := C6_4xx5xx_error_classification test_scraper test_collab
    (fun _ => HttpResponse.mk 503 ("x")) (by decide) (by decide)
  exact ⟨h.1, h.2.2 (by decide)⟩

/-- C8: whenever `scrape()` returns rather than raising, its result is a
structurally complete 3-tuple (markdown, images, title); in the embedding
every `Except.ok` value carries all three fields, on the success path and on
the soft-failure path alike. -/
theorem C8_outcome_structurally_complete (s : JinaScraper)
    (C : Collaborators) (net : Nat → HttpRequest → HttpResponse)
    (r : ScrapeOutcome) (attempts : Nat) (waits : List Nat)
    (h : JinaScraper.scrape s C net = (Except.ok r, attempts, waits)) :
    ∃ markdown images title, r = (markdown, images, title) :=
  ⟨r.1, r.2.1, r.2.2, rfl⟩

/-- Witness for C8 at a concrete successful run. -/
theorem C8_outcome_structurally_complete_witness :
    ∃ markdown images title,
      (("hello", ([] : List String), "T") : ScrapeOutcome) =
        (markdown, images, title) :=
  C8_outcome_structurally_complete test_scraper test_collab
    (fun _ _ => HttpResponse.mk 200 ("hello")) ("hello", [], "T") 1 [] rfl

/-- C9: the stored network session has no effect on behaviour — the network
call uses module-level `requests.post`, not `self.session` — so two scraper
states that agree on link, key and endpoint but hold different sessions
produce identical outcomes on identical responses. -/
theorem C9_session_unused (s₁ s₂ : JinaScraper) (C : Collaborators)
    (net : Nat → HttpRequest → HttpResponse)
    (hlink : s₁.link = s₂.link) (hkey : s₁.api_key = s₂.api_key)
    (hurl : s₁.api_url = s₂.api_url) :
    JinaScraper.scrape s₁ C net = JinaScraper.scrape s₂ C net := by
  cases s₁
  cases s₂
  simp only at hlink hkey hurl
  subst hlink
  subst hkey
  subst hurl
  rfl

/-- Witness for C9: two scrapers differing only in the session object. -/
theorem C9_session_unused_witness :
    JinaScraper.scrape test_scraper test_collab
        (fun _ _ => HttpResponse.mk 200 ("hello")) =
      JinaScraper.scrape test_scraper_other_session test_collab
        (fun _ _ => HttpResponse.mk 200 ("hello")) :=
  C9_session_unused test_scraper test_scraper_other_session test_collab
    (fun _ _ => HttpResponse.mk 200 ("hello")) rfl rfl rfl

/-- C10: `scrape()` is a deterministic function of the mocked responses and
the scraper state — two calls against pointwise identical responses yield
identical results. -/
theorem C10_deterministic (s : JinaScraper) (C : Collaborators)
    (net₁ net₂ : Nat → HttpRequest → HttpResponse)
    (hnet : ∀ n req, net₁ n req = net₂ n req) :
    JinaScraper.scrape s C net₁ = JinaScraper.scrape s C net₂ := by
  have heq : net₁ = net₂ := funext fun n => funext fun req => hnet n req
  rw [heq]

/-- Witness for C10: two identical mocked 200 responses. -/
theorem C10_deterministic_witness :
    JinaScraper.scrape test_scraper test_collab
        (fun _ _ => HttpResponse.mk 200 ("hello")) =
      JinaScraper.scrape test_scraper test_collab
        (fun _ r => HttpResponse.mk 200 ("hello")) :=
  C10_deterministic test_scraper test_collab
    (fun _ _ => HttpResponse.mk 200 ("hello"))
    (fun _ r => HttpResponse.mk 200 ("hello"))
    (fun _ _ => rfl)

end Jina
